import Mathlib

/-!
Verification of the pooled-connection governor in `src/db.js`.

The development shallowly embeds the data-access layer: errors are records
mirroring the flag fields the code reads and writes on JavaScript error
objects (`code`, `removeFromPool`, `human`); a leased-connection interaction
is recorded as a trace of events (pool acquire, healthy release, discarding
release, statements issued on the client); the caller-supplied work unit
(`runner`) is a function from the attempt number to its outcome and the
statement events it emitted, so a unit may behave differently on a retry.

`withClient` retries without bound on the deadlock error code, so its
embedding takes a fuel argument; a result of `none` means the fuel was
exhausted while the code was still retrying, which is how the embedding
renders nontermination.  Acquisition of a connection is assumed to succeed:
in the source a connect failure propagates before the `try` block is
entered, outside every property considered here.
-/

namespace Db

/-- An error value as the governor sees it: `msg` identifies the error
object, `code` is the SQLSTATE string when the store supplied one,
`removeFromPool` is the flag `withTransaction` sets on a failed ROLLBACK
(and a work unit may set itself), and `human` is the explanatory note
`withClient` attaches before re-raising a pool-discarding error. -/
structure Err where
  msg : String
  code : Option String := none
  removeFromPool : Bool := false
  human : Option String := none
deriving DecidableEq, Repr

/-- An event produced by the work unit while it holds the client:
a statement issued on the leased connection, or the marker that the
caller-supplied work body ran. -/
inductive WorkEv where
  | stmt (s : String)
  | work
deriving DecidableEq, Repr

/-- A pool-level event: acquiring a connection, releasing it healthy
(`done()`), releasing it with a discard signal (`done(err)`), or an event
of the work unit run while the connection was held. -/
inductive Event where
  | acquire
  | releaseOk
  | releaseDiscard
  | ev (w : WorkEv)
deriving DecidableEq, Repr

/-- PostgreSQL SQLSTATE for deadlock detected, the one code `withClient`
retries on (source: `err.code === '40P01'`). -/
def deadlockCode : String := "40P01"

/-- Embedding of `withClient` from `src/db.js`, lines 70-94, with explicit
fuel and attempt counter.  Each level: acquire, run the work unit, then
either release healthy and return the result, or classify the error —
`removeFromPool` flagged: attach the note, release with discard, re-raise;
deadlock code: release healthy and recurse on the next attempt; anything
else: release healthy and re-raise.  `none` in the first component means
the fuel ran out while the code was still retrying. -/
def withClientAux (runner : Nat → Except Err α × List WorkEv) :
    Nat → Nat → Option (Except Err α) × List Event
  | 0, _ => (none, [])
  | fuel+1, attempt =>
    let r := runner attempt
    let evs := r.2.map Event.ev
    match r.1 with
    | Except.ok v =>
        (some (Except.ok v), Event.acquire :: evs ++ [Event.releaseOk])
    | Except.error e =>
        if e.removeFromPool then
          (some (Except.error { e with human := some "Could not remove from pool" }),
            Event.acquire :: evs ++ [Event.releaseDiscard])
        else if e.code = some deadlockCode then
          let rest := withClientAux runner fuel (attempt + 1)
          (rest.1, Event.acquire :: evs ++ [Event.releaseOk] ++ rest.2)
        else
          (some (Except.error e), Event.acquire :: evs ++ [Event.releaseOk])

/-- The governor `withClient runner`, starting at attempt 0. -/
def withClient (runner : Nat → Except Err α × List WorkEv) (fuel : Nat) :
    Option (Except Err α) × List Event :=
  withClientAux runner fuel 0

/-- The result object of a statement, of which the helpers only use `rows`. -/
structure QueryResult (ρ : Type) where
  rows : List ρ
deriving DecidableEq, Repr

/-- Embedding of the plain `query` helper (`src/db.js` lines 24-34):
acquire a pooled connection, run the statement, release the connection in
a `finally` so it is released on success and on error alike.  `exec` is
the outcome the store produces for the statement. -/
def query (sqlText : String) (exec : Except Err (QueryResult ρ)) :
    Except Err (QueryResult ρ) × List Event :=
  (exec, [Event.acquire, Event.ev (WorkEv.stmt sqlText), Event.releaseOk])

/-- The failure `better-assert` raises when `assert(result.rows.length <= 1)`
does not hold in `queryOne`. -/
def assertionFailed : Err := { msg := "AssertionError" }

/-- Embedding of `queryOne` (`src/db.js` lines 36-40): run `query`, assert
at most one row matched, and return `rows[0]` — the row when one matched,
absent (`none`) when zero matched. -/
def queryOne (sqlText : String) (exec : Except Err (QueryResult ρ)) :
    Except Err (Option ρ) × List Event :=
  let q := query sqlText exec
  match q.1 with
  | Except.error e => (Except.error e, q.2)
  | Except.ok r =>
      if r.rows.length ≤ 1 then (Except.ok r.rows.head?, q.2)
      else (Except.error assertionFailed, q.2)

/-- Embedding of `queryMany` (`src/db.js` lines 42-45): run `query` and
return all matched rows in the order the store returned them. -/
def queryMany (sqlText : String) (exec : Except Err (QueryResult ρ)) :
    Except Err (List ρ) × List Event :=
  let q := query sqlText exec
  (q.1.map (fun r => r.rows), q.2)

/-- The environment of one transactional attempt: the store outcomes of
BEGIN, of the wrapped work unit, of COMMIT, and of ROLLBACK, should each
be reached. -/
structure TxEnv (α : Type) where
  beginRes : Except Err Unit
  workRes : Except Err α
  commitRes : Except Err Unit
  rollbackRes : Except Err Unit

/-- Embedding of the catch block of `withTransaction` (`src/db.js` lines
106-114): issue ROLLBACK; if it fails, the inner `catch (err)` shadows the
original error, sets `removeFromPool` on the ROLLBACK error and throws it;
if it succeeds, the original error is re-thrown unchanged. -/
def txCatch (rollbackRes : Except Err Unit) (e : Err) :
    Except Err α × List WorkEv :=
  match rollbackRes with
  | Except.ok _ => (Except.error e, [WorkEv.stmt "ROLLBACK"])
  | Except.error e2 =>
      (Except.error { e2 with removeFromPool := true }, [WorkEv.stmt "ROLLBACK"])

/-- Embedding of the work unit `withTransaction` hands to `withClient`
(`src/db.js` lines 98-116): BEGIN, run the wrapped work, COMMIT, return
the work's result; any failure of the three falls into the catch block. -/
def txRunner (env : TxEnv α) : Except Err α × List WorkEv :=
  match env.beginRes with
  | Except.error e =>
      let c := txCatch env.rollbackRes e (α := α)
      (c.1, WorkEv.stmt "BEGIN" :: c.2)
  | Except.ok _ =>
      match env.workRes with
      | Except.error e =>
          let c := txCatch env.rollbackRes e (α := α)
          (c.1, WorkEv.stmt "BEGIN" :: WorkEv.work :: c.2)
      | Except.ok v =>
          match env.commitRes with
          | Except.error e =>
              let c := txCatch env.rollbackRes e (α := α)
              (c.1, WorkEv.stmt "BEGIN" :: WorkEv.work :: WorkEv.stmt "COMMIT" :: c.2)
          | Except.ok _ =>
              (Except.ok v, [WorkEv.stmt "BEGIN", WorkEv.work, WorkEv.stmt "COMMIT"])

/-- The operation `withTransaction`: the transactional wrapper run under `withClient`;
`envs` gives the store outcomes seen by each attempt. -/
def withTransaction (envs : Nat → TxEnv α) (fuel : Nat) :
    Option (Except Err α) × List Event :=
  withClient (fun attempt => txRunner (envs attempt)) fuel

/-- A trace is a sequence of complete attempt blocks: each block opens with
exactly one acquire, contains only work-unit events, and closes with exactly
one release (healthy or discarding) before the next block starts. -/
inductive Balanced : List Event → Prop where
  | nil : Balanced []
  | block (evs : List WorkEv) (r : Event) (rest : List Event)
      (hr : r = Event.releaseOk ∨ r = Event.releaseDiscard)
      (h : Balanced rest) :
      Balanced (Event.acquire :: evs.map Event.ev ++ r :: rest)

/-! ### Helper lemmas: one step of `withClientAux` per error classification -/

theorem withClientAux_ok (runner : Nat → Except Err α × List WorkEv)
    (f a : Nat) (v : α) (evs : List WorkEv)
    (h : runner a = (Except.ok v, evs)) :
    withClientAux runner (f+1) a =
      (some (Except.ok v), Event.acquire :: evs.map Event.ev ++ [Event.releaseOk]) := by
  simp [withClientAux, h]

theorem withClientAux_discard (runner : Nat → Except Err α × List WorkEv)
    (f a : Nat) (e : Err) (evs : List WorkEv)
    (h : runner a = (Except.error e, evs)) (hflag : e.removeFromPool = true) :
    withClientAux runner (f+1) a =
      (some (Except.error { e with human := some "Could not remove from pool" }),
        Event.acquire :: evs.map Event.ev ++ [Event.releaseDiscard]) := by
  simp [withClientAux, h, hflag]

theorem withClientAux_deadlock (runner : Nat → Except Err α × List WorkEv)
    (f a : Nat) (e : Err) (evs : List WorkEv)
    (h : runner a = (Except.error e, evs)) (hflag : e.removeFromPool = false)
    (hcode : e.code = some deadlockCode) :
    withClientAux runner (f+1) a =
      ((withClientAux runner f (a+1)).1,
        Event.acquire :: evs.map Event.ev ++ [Event.releaseOk] ++
          (withClientAux runner f (a+1)).2) := by
  simp [withClientAux, h, hflag, hcode]

theorem withClientAux_plain (runner : Nat → Except Err α × List WorkEv)
    (f a : Nat) (e : Err) (evs : List WorkEv)
    (h : runner a = (Except.error e, evs)) (hflag : e.removeFromPool = false)
    (hcode : e.code ≠ some deadlockCode) :
    withClientAux runner (f+1) a =
      (some (Except.error e), Event.acquire :: evs.map Event.ev ++ [Event.releaseOk]) := by
  simp [withClientAux, h, hflag, hcode]

/-! ### Claims -/

/-- C1: every attempt of `withClient` (at any fuel and starting attempt) that
acquires a connection releases it back to the pool exactly once — the trace
is a sequence of blocks, each opening with one acquire and closing with one
release (healthy or discarding) before the next acquire or the return — and
the plain `query` helper likewise acquires once and releases exactly once,
on success and on error alike. -/
theorem withClient_acquire_release_balanced
    (ρ α : Type) (runner : Nat → Except Err α × List WorkEv) (fuel attempt : Nat)
    (sqlText : String) (exec : Except Err (QueryResult ρ)) :
    Balanced (withClientAux runner fuel attempt).2 ∧
    (query sqlText exec).2 =
      [Event.acquire, Event.ev (WorkEv.stmt sqlText), Event.releaseOk] := by
  refine ⟨?_, rfl⟩
  induction fuel generalizing attempt with
  | zero => exact Balanced.nil
  | succ f ih =>
    cases hr : runner attempt with
    | mk res evs =>
      match res with
      | Except.ok v =>
        rw [withClientAux_ok runner f attempt v evs hr]
        exact Balanced.block evs Event.releaseOk [] (Or.inl rfl) Balanced.nil
      | Except.error e =>
        cases hflag : e.removeFromPool with
        | true =>
          rw [withClientAux_discard runner f attempt e evs hr hflag]
          exact Balanced.block evs Event.releaseDiscard [] (Or.inr rfl) Balanced.nil
        | false =>
          by_cases hcode : e.code = some deadlockCode
          · rw [withClientAux_deadlock runner f attempt e evs hr hflag hcode]
            have hb := Balanced.block evs Event.releaseOk
              ((withClientAux runner f (attempt + 1)).2) (Or.inl rfl) (ih (attempt + 1))
            simpa using hb
          · rw [withClientAux_plain runner f attempt e evs hr hflag hcode]
            exact Balanced.block evs Event.releaseOk [] (Or.inl rfl) Balanced.nil

/-- C8: `queryOne` asserts at most one row matched — two or more rows raise
the assertion failure — and returns the single row when one matched or an
absent value (`none`) when zero matched; `queryMany` returns all matched
rows unchanged, in the order the store returned them. -/
theorem queryOne_queryMany_projection (ρ : Type) (sqlText : String) :
    (∀ (x y : ρ) (rest : List ρ),
      (queryOne sqlText (Except.ok ⟨x :: y :: rest⟩)).1 = Except.error assertionFailed) ∧
    (∀ x : ρ, (queryOne sqlText (Except.ok ⟨[x]⟩)).1 = Except.ok (some x)) ∧
    ((queryOne sqlText (Except.ok (⟨[]⟩ : QueryResult ρ))).1 = Except.ok none) ∧
    (∀ rows : List ρ, (queryMany sqlText (Except.ok ⟨rows⟩)).1 = Except.ok rows) := by
  refine ⟨?_, ?_, ?_, ?_⟩ <;> intros <;> simp [queryOne, queryMany, query, Except.map]

/-- C3: a work unit that fails on the first attempt with the deadlock code
(and without the `removeFromPool` flag) and succeeds on the second attempt
yields the successful result to the caller; the trace shows the first
connection released healthy (no discard anywhere) and a second, fresh
acquire/release cycle for the retry. -/
theorem withClient_deadlock_retry_success
    (α : Type) (runner : Nat → Except Err α × List WorkEv)
    (e : Err) (evs0 evs1 : List WorkEv) (v : α)
    (h0 : runner 0 = (Except.error e, evs0))
    (hcode : e.code = some deadlockCode) (hflag : e.removeFromPool = false)
    (h1 : runner 1 = (Except.ok v, evs1)) :
    withClient runner 2 =
      (some (Except.ok v),
        Event.acquire :: evs0.map Event.ev ++ [Event.releaseOk] ++
          (Event.acquire :: evs1.map Event.ev ++ [Event.releaseOk])) ∧
    Event.releaseDiscard ∉ (withClient runner 2).2 := by
  have hstep := withClientAux_deadlock runner 1 0 e evs0 h0 hflag hcode
  have hok := withClientAux_ok runner 0 1 v evs1 h1
  have htot : withClient runner 2 =
      (some (Except.ok v),
        Event.acquire :: evs0.map Event.ev ++ [Event.releaseOk] ++
          (Event.acquire :: evs1.map Event.ev ++ [Event.releaseOk])) := by
    unfold withClient
    rw [hstep, hok]
  refine ⟨htot, ?_⟩
  rw [htot]
  simp

def dlErr : Err := { msg := "deadlock detected", code := some "40P01" }

def retryRunnerA : Nat → Except Err Nat × List WorkEv :=
  fun k => if k = 0 then (Except.error dlErr, []) else (Except.ok 42, [])

theorem withClient_deadlock_retry_success_witness :
    withClient retryRunnerA 2 =
      (some (Except.ok 42),
        [Event.acquire, Event.releaseOk, Event.acquire, Event.releaseOk]) ∧
    Event.releaseDiscard ∉ (withClient retryRunnerA 2).2 := by
  have h := withClient_deadlock_retry_success Nat retryRunnerA dlErr [] [] 42
    rfl rfl rfl rfl
  simpa using h

/-- C4: a work unit failing with an error flagged `removeFromPool` makes
`withClient` release the connection with the discard signal, attach the
human-readable note, and re-raise the same error augmented only with that
note — and no retry happens at any fuel. -/
theorem withClient_removeFromPool_discard
    (α : Type) (runner : Nat → Except Err α × List WorkEv)
    (e : Err) (evs0 : List WorkEv) (fuel : Nat)
    (h0 : runner 0 = (Except.error e, evs0)) (hflag : e.removeFromPool = true) :
    withClient runner (fuel+1) =
      (some (Except.error { e with human := some "Could not remove from pool" }),
        Event.acquire :: evs0.map Event.ev ++ [Event.releaseDiscard]) :=
  withClientAux_discard runner fuel 0 e evs0 h0 hflag

def poisonErr : Err := { msg := "client corrupted", removeFromPool := true }

theorem withClient_removeFromPool_discard_witness :
    withClient (fun _ => ((Except.error poisonErr : Except Err Nat), ([] : List WorkEv))) 1 =
      (some (Except.error { msg := "client corrupted", removeFromPool := true,
                            human := some "Could not remove from pool" }),
        [Event.acquire, Event.releaseDiscard]) := by
  have h := withClient_removeFromPool_discard Nat
    (fun _ => (Except.error poisonErr, [])) poisonErr [] 0 rfl rfl
  simpa [poisonErr] using h

/-- C6: a work unit failing with an error that neither carries the
`removeFromPool` flag nor the deadlock code makes `withClient` release the
connection healthy and re-raise that very error, with a single
acquire/release cycle and no retry, at any fuel. -/
theorem withClient_other_error_passthrough
    (α : Type) (runner : Nat → Except Err α × List WorkEv)
    (e : Err) (evs0 : List WorkEv) (fuel : Nat)
    (h0 : runner 0 = (Except.error e, evs0)) (hflag : e.removeFromPool = false)
    (hcode : e.code ≠ some deadlockCode) :
    withClient runner (fuel+1) =
      (some (Except.error e), Event.acquire :: evs0.map Event.ev ++ [Event.releaseOk]) :=
  withClientAux_plain runner fuel 0 e evs0 h0 hflag hcode

def errBoom : Err := { msg := "boom" }

theorem withClient_other_error_passthrough_witness :
    withClient (fun _ => ((Except.error errBoom : Except Err Nat), ([] : List WorkEv))) 1 =
      (some (Except.error errBoom), [Event.acquire, Event.releaseOk]) := by
  have h := withClient_other_error_passthrough Nat
    (fun _ => (Except.error errBoom, [])) errBoom [] 0 rfl rfl (by decide)
  simpa using h

/-- C9: the `removeFromPool` flag is checked before the deadlock code: an
error carrying both takes the discard path — released with the discard
signal, note attached, re-raised — and is not retried at any fuel. -/
theorem withClient_flag_before_deadlock
    (α : Type) (runner : Nat → Except Err α × List WorkEv)
    (e : Err) (evs0 : List WorkEv) (fuel : Nat)
    (h0 : runner 0 = (Except.error e, evs0)) (hflag : e.removeFromPool = true)
    (hcode : e.code = some deadlockCode) :
    withClient runner (fuel+1) =
      (some (Except.error { e with human := some "Could not remove from pool" }),
        Event.acquire :: evs0.map Event.ev ++ [Event.releaseDiscard]) :=
  withClientAux_discard runner fuel 0 e evs0 h0 hflag

def poisonDeadlockErr : Err :=
  { msg := "deadlock after corruption", code := some "40P01", removeFromPool := true }

theorem withClient_flag_before_deadlock_witness :
    withClient (fun _ => ((Except.error poisonDeadlockErr : Except Err Nat), ([] : List WorkEv))) 3 =
      (some (Except.error { msg := "deadlock after corruption", code := some "40P01",
                            removeFromPool := true,
                            human := some "Could not remove from pool" }),
        [Event.acquire, Event.releaseDiscard]) := by
  have h := withClient_flag_before_deadlock Nat
    (fun _ => (Except.error poisonDeadlockErr, [])) poisonDeadlockErr [] 2 rfl rfl rfl
  simpa [poisonDeadlockErr] using h

/-- C5: when BEGIN, the wrapped work and COMMIT all succeed, the
transaction returns the work result, and the event order is: acquire,
BEGIN, the work body, COMMIT, then the healthy release — COMMIT is issued
after the work succeeds and before the connection is released. -/
theorem withTransaction_success_commit
    (α : Type) (envs : Nat → TxEnv α) (v : α)
    (hb : (envs 0).beginRes = Except.ok ())
    (hw : (envs 0).workRes = Except.ok v)
    (hc : (envs 0).commitRes = Except.ok ()) :
    withTransaction envs 1 =
      (some (Except.ok v),
        [Event.acquire, Event.ev (WorkEv.stmt "BEGIN"), Event.ev WorkEv.work,
          Event.ev (WorkEv.stmt "COMMIT"), Event.releaseOk]) := by
  have hrun : txRunner (envs 0) =
      (Except.ok v, [WorkEv.stmt "BEGIN", WorkEv.work, WorkEv.stmt "COMMIT"]) := by
    simp [txRunner, hb, hw, hc]
  have h := withClientAux_ok (fun attempt => txRunner (envs attempt)) 0 0 v
    [WorkEv.stmt "BEGIN", WorkEv.work, WorkEv.stmt "COMMIT"] (by simpa using hrun)
  simpa [withTransaction, withClient] using h

def txEnvAllOk : TxEnv Nat :=
  { beginRes := Except.ok (), workRes := Except.ok 7,
    commitRes := Except.ok (), rollbackRes := Except.ok () }

theorem withTransaction_success_commit_witness :
    withTransaction (fun _ => txEnvAllOk) 1 =
      (some (Except.ok 7),
        [Event.acquire, Event.ev (WorkEv.stmt "BEGIN"), Event.ev WorkEv.work,
          Event.ev (WorkEv.stmt "COMMIT"), Event.releaseOk]) :=
  withTransaction_success_commit Nat (fun _ => txEnvAllOk) 7 rfl rfl rfl

/-- C2: whenever the wrapped work fails, or the work succeeds and COMMIT
fails, ROLLBACK is issued by the transactional wrapper; if ROLLBACK
succeeds, the wrapper re-raises exactly the original failure; if ROLLBACK
fails, the wrapper raises the ROLLBACK error marked `removeFromPool`, and
the enclosing `withClient` then discards the connection and surfaces that
marked ROLLBACK error (with the explanatory note attached) to the caller. -/
theorem withTransaction_failure_rollback
    (α : Type) (env : TxEnv α) (e : Err)
    (hfail : (env.beginRes = Except.ok () ∧ env.workRes = Except.error e) ∨
      (env.beginRes = Except.ok () ∧ env.commitRes = Except.error e ∧
        ∃ v, env.workRes = Except.ok v)) :
    WorkEv.stmt "ROLLBACK" ∈ (txRunner env).2 ∧
    (env.rollbackRes = Except.ok () → (txRunner env).1 = Except.error e) ∧
    (∀ r : Err, env.rollbackRes = Except.error r →
      (txRunner env).1 = Except.error { r with removeFromPool := true } ∧
      (withClient (fun _ => txRunner env) 1).1 =
        some (Except.error { { r with removeFromPool := true } with human := some "Could not remove from pool" }) ∧
      (withClient (fun _ => txRunner env) 1).2 =
        Event.acquire :: (txRunner env).2.map Event.ev ++ [Event.releaseDiscard]) := by
  have hcatch : ∀ e0 : Err,
      (env.rollbackRes = Except.ok () → txCatch env.rollbackRes e0 (α := α) =
        (Except.error e0, [WorkEv.stmt "ROLLBACK"])) ∧
      (∀ r : Err, env.rollbackRes = Except.error r →
        txCatch env.rollbackRes e0 (α := α) =
          (Except.error { r with removeFromPool := true }, [WorkEv.stmt "ROLLBACK"])) := by
    intro e0
    constructor
    · intro hrb; simp [txCatch, hrb]
    · intro r hrb; simp [txCatch, hrb]
  have hdiscard : ∀ r : Err, (txRunner env).1 = Except.error { r with removeFromPool := true } →
      (withClient (fun _ => txRunner env) 1).1 =
        some (Except.error { { r with removeFromPool := true } with human := some "Could not remove from pool" }) ∧
      (withClient (fun _ => txRunner env) 1).2 =
        Event.acquire :: (txRunner env).2.map Event.ev ++ [Event.releaseDiscard] := by
    intro r hres
    have h := withClientAux_discard (fun _ => txRunner env) 0 0
      { r with removeFromPool := true } (txRunner env).2
      (by rw [← hres]) rfl
    rw [withClient, h]
    exact ⟨rfl, rfl⟩
  rcases hfail with ⟨hb, hw⟩ | ⟨hb, hc, v, hw⟩
  · cases hrb : env.rollbackRes with
    | ok u =>
      cases u
      refine ⟨?_, ?_, ?_⟩
      · simp [txRunner, hb, hw, (hcatch e).1 hrb]
      · intro _; simp [txRunner, hb, hw, (hcatch e).1 hrb]
      · intro r hr; exact absurd hr (by simp)
    | error r0 =>
      refine ⟨?_, ?_, ?_⟩
      · simp [txRunner, hb, hw, (hcatch e).2 r0 hrb]
      · intro hco; exact absurd hco (by simp)
      · intro r hr
        obtain rfl : r0 = r := by simpa using hr
        have hres : (txRunner env).1 = Except.error { r0 with removeFromPool := true } := by
          simp [txRunner, hb, hw, (hcatch e).2 r0 hrb]
        exact ⟨hres, (hdiscard r0 hres).1, (hdiscard r0 hres).2⟩
  · cases hrb : env.rollbackRes with
    | ok u =>
      cases u
      refine ⟨?_, ?_, ?_⟩
      · simp [txRunner, hb, hw, hc, (hcatch e).1 hrb]
      · intro _; simp [txRunner, hb, hw, hc, (hcatch e).1 hrb]
      · intro r hr; exact absurd hr (by simp)
    | error r0 =>
      refine ⟨?_, ?_, ?_⟩
      · simp [txRunner, hb, hw, hc, (hcatch e).2 r0 hrb]
      · intro hco; exact absurd hco (by simp)
      · intro r hr
        obtain rfl : r0 = r := by simpa using hr
        have hres : (txRunner env).1 = Except.error { r0 with removeFromPool := true } := by
          simp [txRunner, hb, hw, hc, (hcatch e).2 r0 hrb]
        exact ⟨hres, (hdiscard r0 hres).1, (hdiscard r0 hres).2⟩

def errRbFail : Err := { msg := "rollback failed" }

def txEnvWorkFails : TxEnv Nat :=
  { beginRes := Except.ok (), workRes := Except.error errBoom,
    commitRes := Except.ok (), rollbackRes := Except.ok () }

def txEnvRbFails : TxEnv Nat :=
  { beginRes := Except.ok (), workRes := Except.error errBoom,
    commitRes := Except.ok (), rollbackRes := Except.error errRbFail }

theorem withTransaction_failure_rollback_witness :
    (WorkEv.stmt "ROLLBACK" ∈ (txRunner txEnvWorkFails).2 ∧
      (txRunner txEnvWorkFails).1 = Except.error errBoom) ∧
    (withClient (fun _ => txRunner txEnvRbFails) 1).1 =
      some (Except.error { msg := "rollback failed", removeFromPool := true,
                            human := some "Could not remove from pool" }) := by
  have h1 := withTransaction_failure_rollback Nat txEnvWorkFails errBoom
    (Or.inl ⟨rfl, rfl⟩)
  have h2 := withTransaction_failure_rollback Nat txEnvRbFails errBoom
    (Or.inl ⟨rfl, rfl⟩)
  refine ⟨⟨h1.1, h1.2.1 rfl⟩, ?_⟩
  have h3 := (h2.2.2 errRbFail rfl).2.1
  simpa [errRbFail] using h3

/-- An attempt outcome that `withClient` classifies as retriable: a failure
carrying the deadlock code and not the `removeFromPool` flag. -/
def deadlockFailure (r : Except Err α × List WorkEv) : Prop :=
  ∃ e : Err, r.1 = Except.error e ∧ e.code = some deadlockCode ∧ e.removeFromPool = false

theorem withClientAux_retries_to_success (runner : Nat → Except Err α × List WorkEv) :
    ∀ (n a : Nat) (v : α) (evs : List WorkEv),
      (∀ k, k < n → deadlockFailure (runner (a + k))) →
      runner (a + n) = (Except.ok v, evs) →
      (withClientAux runner (n+1) a).1 = some (Except.ok v) := by
  intro n
  induction n with
  | zero =>
    intro a v evs _ hok
    rw [withClientAux_ok runner 0 a v evs (by simpa using hok)]
  | succ m ih =>
    intro a v evs hdl hok
    obtain ⟨e, he, hc, hf⟩ := hdl 0 (Nat.succ_pos m)
    simp only [Nat.add_zero] at he
    have hpair : runner a = (Except.error e, (runner a).2) := by rw [← he]
    rw [withClientAux_deadlock runner (m+1) a e (runner a).2 hpair hf hc]
    have hdl2 : ∀ k, k < m → deadlockFailure (runner (a + 1 + k)) := by
      intro k hk
      have h2 := hdl (k+1) (Nat.succ_lt_succ hk)
      rw [show a + (k+1) = a + 1 + k by omega] at h2
      exact h2
    have hok2 : runner (a + 1 + m) = (Except.ok v, evs) := by
      rw [show a + 1 + m = a + (m+1) by omega]
      exact hok
    exact ih (a+1) v evs hdl2 hok2

theorem withClientAux_all_deadlock_diverges (runner : Nat → Except Err α × List WorkEv)
    (hdl : ∀ k, deadlockFailure (runner k)) :
    ∀ (fuel a : Nat), (withClientAux runner fuel a).1 = none := by
  intro fuel
  induction fuel with
  | zero => intro a; rfl
  | succ f ih =>
    intro a
    obtain ⟨e, he, hc, hf⟩ := hdl a
    have hpair : runner a = (Except.error e, (runner a).2) := by rw [← he]
    rw [withClientAux_deadlock runner f a e (runner a).2 hpair hf hc]
    exact ih (a+1)

/-- C7: `withClient` applies no retry limit — a work unit that fails with
the deadlock code on its first n attempts and succeeds on attempt n+1
returns the success to the caller (fuel n+1 suffices, for every n) — and a
work unit that fails with the deadlock code on every attempt recurses
without bound: at every fuel the embedding is still retrying (`none`),
i.e. the original never terminates. -/
theorem withClient_no_retry_limit (α : Type) (runner : Nat → Except Err α × List WorkEv) :
    (∀ (n : Nat) (v : α) (evs : List WorkEv),
      (∀ k, k < n → deadlockFailure (runner k)) → runner n = (Except.ok v, evs) →
      (withClient runner (n+1)).1 = some (Except.ok v)) ∧
    ((∀ k, deadlockFailure (runner k)) → ∀ fuel, (withClient runner fuel).1 = none) := by
  constructor
  · intro n v evs hdl hok
    exact withClientAux_retries_to_success runner n 0 v evs
      (by simpa using hdl) (by simpa using hok)
  · intro hdl fuel
    exact withClientAux_all_deadlock_diverges runner hdl fuel 0

def alwaysDeadlock : Nat → Except Err Nat × List WorkEv :=
  fun _ => (Except.error dlErr, [])

theorem withClient_no_retry_limit_witness :
    (withClient retryRunnerA 2).1 = some (Except.ok 42) ∧
    (withClient alwaysDeadlock 5).1 = none := by
  have h1 := withClient_no_retry_limit Nat retryRunnerA
  have h2 := withClient_no_retry_limit Nat alwaysDeadlock
  refine ⟨h1.1 1 42 [] ?_ rfl, h2.2 ?_ 5⟩
  · intro k hk
    interval_cases k
    exact ⟨dlErr, rfl, rfl, rfl⟩
  · intro k
    exact ⟨dlErr, rfl, rfl, rfl⟩

/-- SQL text of `logoutSession` (`src/db.js` lines 250-262), verbatim from
the template literal. -/
def logoutSessionSql : String :=
  ";\n    UPDATE sessions\n    SET logged_out_at = NOW()\n    WHERE user_id = $1\n      AND id = $2\n  "

/-- SQL text of `hideMessage` (`src/db.js` lines 264-274), verbatim. -/
def hideMessageSql : String :=
  ";\n    UPDATE messages\n    SET is_hidden = true\n    WHERE id = $1\n  "

/-- SQL text of `getMessageById` (`src/db.js` lines 276-286), verbatim. -/
def getMessageByIdSql : String :=
  ";\n    SELECT *\n    FROM messages\n    WHERE id = $1\n  "

/-- SQL text of `admin.getStats` (`src/db.js` lines 382-390), verbatim. -/
def adminGetStatsSql : String :=
  ";\n    SELECT\n      (SELECT COUNT(*) FROM users) AS users_count,\n      (SELECT COUNT(*) FROM messages WHERE is_hidden = false) AS messages_count\n  "

/-- Modelled from the spec: the relational store itself is an external
collaborator (spec section 6), not part of the repository.  Under the
store contract named by the claim, a parameterized statement must contain
a single command: a semicolon in the text introduces a statement boundary,
so a leading semicolon creates an empty statement preceding the intended
command and the text is no longer a single command. -/
def singleCommand (s : String) : Bool := s.data.all (fun c => c ≠ ';')

/-- Modelled from the spec: the error the store raises when a parameterized
statement with more than one command is submitted. -/
def multiCommandError : Err :=
  { msg := "cannot insert multiple commands into a prepared statement" }

/-- Modelled from the spec: the store executing a parameterized statement —
`exec` is the result the store would produce for the intended command, but
text violating the single-command contract fails with the store error. -/
def execParameterized (sqlText : String) (exec : Except Err (QueryResult ρ)) :
    Except Err (QueryResult ρ) :=
  if singleCommand sqlText then exec else Except.error multiCommandError

/-- The function `logoutSession` runs its SQL with parameters `[userId, sessionId]`
through the plain `query` helper. -/
def logoutSession (userId : Int) (sessionId : String)
    (exec : Except Err (QueryResult ρ)) :
    Except Err (QueryResult ρ) × List Event :=
  query logoutSessionSql (execParameterized logoutSessionSql exec)

/-- The function `hideMessage` runs its SQL with parameter `[messageId]` through the
plain `query` helper. -/
def hideMessage (messageId : Int) (exec : Except Err (QueryResult ρ)) :
    Except Err (QueryResult ρ) × List Event :=
  query hideMessageSql (execParameterized hideMessageSql exec)

/-- The function `getMessageById` runs its SQL with parameter `[messageId]` through
`queryOne`. -/
def getMessageById (messageId : Int) (exec : Except Err (QueryResult ρ)) :
    Except Err (Option ρ) × List Event :=
  queryOne getMessageByIdSql (execParameterized getMessageByIdSql exec)

/-- C10: the SQL texts of `logoutSession`, `hideMessage`, `getMessageById`
and `admin.getStats` all begin with a stray semicolon, and under the
single-command store contract every invocation of the three parameterized
ones fails with the store error instead of performing its update or
select, whatever result the store would have produced for the intended
command. -/
theorem stray_semicolon_sql (ρ : Type) :
    logoutSessionSql.data.head? = some ';' ∧
    hideMessageSql.data.head? = some ';' ∧
    getMessageByIdSql.data.head? = some ';' ∧
    adminGetStatsSql.data.head? = some ';' ∧
    ∀ (userId : Int) (sessionId : String) (messageId : Int)
      (exec : Except Err (QueryResult ρ)),
      (logoutSession userId sessionId exec).1 = Except.error multiCommandError ∧
      (hideMessage messageId exec).1 = Except.error multiCommandError ∧
      (getMessageById messageId exec).1 = Except.error multiCommandError := by
  refine ⟨by decide, by decide, by decide, by decide, ?_⟩
  intro userId sessionId messageId exec
  have h1 : singleCommand logoutSessionSql = false := by decide
  have h2 : singleCommand hideMessageSql = false := by decide
  have h3 : singleCommand getMessageByIdSql = false := by decide
  refine ⟨?_, ?_, ?_⟩
  · simp [logoutSession, query, execParameterized, h1]
  · simp [hideMessage, query, execParameterized, h2]
  · simp [getMessageById, queryOne, query, execParameterized, h3]

theorem withClient_acquire_release_balanced_witness :
    Balanced (withClientAux retryRunnerA 2 0).2 ∧
    (query "SELECT 1" (Except.ok (⟨[]⟩ : QueryResult Nat))).2 =
      [Event.acquire, Event.ev (WorkEv.stmt "SELECT 1"), Event.releaseOk] :=
  withClient_acquire_release_balanced Nat Nat retryRunnerA 2 0 "SELECT 1" (Except.ok ⟨[]⟩)

theorem queryOne_queryMany_projection_witness :
    (queryOne "q" (Except.ok (⟨[0, 1]⟩ : QueryResult Nat))).1 = Except.error assertionFailed ∧
    (queryOne "q" (Except.ok (⟨[5]⟩ : QueryResult Nat))).1 = Except.ok (some 5) ∧
    (queryOne "q" (Except.ok (⟨[]⟩ : QueryResult Nat))).1 = Except.ok none ∧
    (queryMany "q" (Except.ok (⟨[1, 2, 3]⟩ : QueryResult Nat))).1 = Except.ok [1, 2, 3] := by
  have h := queryOne_queryMany_projection Nat "q"
  exact ⟨h.1 0 1 [], h.2.1 5, h.2.2.1, h.2.2.2 [1, 2, 3]⟩

theorem stray_semicolon_sql_witness :
    logoutSessionSql.data.head? = some ';' ∧
    (logoutSession 3 "sid" (Except.ok (⟨[]⟩ : QueryResult Nat))).1 =
      Except.error multiCommandError ∧
    (hideMessage 9 (Except.ok (⟨[]⟩ : QueryResult Nat))).1 =
      Except.error multiCommandError ∧
    (getMessageById 9 (Except.ok (⟨[]⟩ : QueryResult Nat))).1 =
      Except.error multiCommandError := by
  have h := stray_semicolon_sql Nat
  have h2 := h.2.2.2.2 3 "sid" 9 (Except.ok ⟨[]⟩)
  exact ⟨h.1, h2.1, h2.2.1, h2.2.2⟩

end Db
